import Mathlib

/-!
# Nintendo NES ROM loader: a shallow embedding of the decode pipeline

This file embeds the core of src/Nintendo_NES/nintendo_nes.py: the header
decode (accept_file and the 16-byte read in load_file), the mapper dispatch
of load_file, the bank-offset arithmetic of load_prg_rom_bank and
load_chr_rom_bank, and the address-space construction (segment creation,
zero-fill, and the three Standard-branch copies).

Modelling choices, all visible in the definitions below:
- the byte source is a List Nat; the analysis database is a function from
  addresses to bytes (Mem); each c_ubyte header field is reduced mod 256;
- Python integer arithmetic on file offsets is Int (a bank number below 1
  makes an offset negative, which Nat subtraction would silently clamp);
- the host primitive li.file2base is not code of this repository; its
  truncation behaviour is modelled from the spec (a copy whose offset plus
  requested length exceeds the available source length fails with a
  TruncatedSource diagnostic and leaves the target region zero-filled);
- host glue with no domain logic (segment renaming, describe_header_info,
  the vector naming table, entry-point registration) is out of scope;
- one real Python fact matters: line 151 compares mapper_version against
  the identifier MAPPER_CAMERIC, which is defined nowhere (the constant on
  line 54 is spelled MAPPER_CAMERICA, and it is not a name injected by the
  host environment), so evaluating the dispatch chain for any mapper id
  outside the set 0..5 raises NameError before the elif branches can run.
-/

set_option maxRecDepth 100000

namespace NES

/-! ## Constants (source lines 6-56) -/

def ROM_SIGNATURE : List Nat := [78, 69, 83, 26]

def ROM_FORMAT_NAME : String := "Nintendo NES ROM"

def ROM_SIGNATURE_LENGTH : Nat := 4

def LEN_NES_HEADER : Nat := 16

def RAM_START : Nat := 0x0

def RAM_SIZE : Nat := 0x2000

def IOREG_START : Nat := 0x2000

def IOREG_SIZE : Nat := 0x2020

def EXPROM_START : Nat := 0x4020

def EXPROM_SIZE : Nat := 0x1FE0

def SRAM_START : Nat := 0x6000

def SRAM_SIZE : Nat := 0x2000

def TRAINER_START : Nat := 0x7000

def TRAINER_SIZE : Nat := 0x0200

def ROM_START : Nat := 0x8000

def ROM_SIZE : Nat := 0x8000

def PRG_PAGE_SIZE : Nat := 0x4000

def CHR_PAGE_SIZE : Nat := 0x2000

def MAPPER_NONE : Nat := 0

def MAPPER_MMC1 : Nat := 1

def MAPPER_UxROM : Nat := 2

def MAPPER_CNROM : Nat := 3

def MAPPER_MMC3 : Nat := 4

def MAPPER_MMC5 : Nat := 5

def MAPPER_AxROM : Nat := 7

def MAPPER_MMC2 : Nat := 9

def MAPPER_COLOR_DREAMS : Nat := 11

def MAPPER_BxROM : Nat := 34

def MAPPER_GNROM : Nat := 66

def MAPPER_CAMERICA : Nat := 71

/-! ## Header decode (source lines 12-23, 69-79, 104-105) -/

/-- The NES_HEADER record (source lines 12-19); every one-byte field is a
ctypes c_ubyte. -/
structure NES_HEADER where
  magic : List Nat
  nb_prg_page_16k : Nat
  nb_chr_page_8k : Nat
  rom_control_byte_0 : Nat
  rom_control_byte_1 : Nat
  nb_prg_page_8k : Nat
  reserved : List Nat
deriving DecidableEq

/-- Fatal loader outcomes. invalidFormat covers both the signature rejection
in accept_file and the ValueError NES_HEADER.from_buffer_copy raises on a
source shorter than 16 bytes; nameError is a Python NameError on reading an
undefined identifier. -/
inductive LoadErr where
  | invalidFormat
  | nameError (missing : String)
deriving DecidableEq

/-- accept_file (source lines 69-79): one format per file, then the 4-byte
signature comparison; none models the 0 return, some the format name. A
source shorter than 4 bytes yields a short read that cannot equal the
signature. -/
def accept_file (src : List Nat) (n : Nat) : Option String :=
  if n > 0 then none
  else if src.take ROM_SIGNATURE_LENGTH = ROM_SIGNATURE then some ROM_FORMAT_NAME
  else none

/-- The decode stage: accept_file gates the load (the host only calls
load_file once accept_file returned the format name), then load_file line
105 reads the 16 header bytes; from_buffer_copy requires all 16, and each
byte field is a c_ubyte, hence the mod 256. -/
def decodeHeader (src : List Nat) : Except LoadErr NES_HEADER :=
  match accept_file src 0 with
  | none => .error .invalidFormat
  | some _ =>
    if src.length < LEN_NES_HEADER then .error .invalidFormat
    else .ok
      { magic := src.take 4
        nb_prg_page_16k := src.getD 4 0 % 256
        nb_chr_page_8k := src.getD 5 0 % 256
        rom_control_byte_0 := src.getD 6 0 % 256
        rom_control_byte_1 := src.getD 7 0 % 256
        nb_prg_page_8k := src.getD 8 0 % 256
        reserved := (src.drop 9).take 7 }

/-! ## Bank offset arithmetic (source lines 81-93 and 153-166) -/

/-- File offset computed by load_prg_rom_bank (source lines 81-86). -/
def load_prg_rom_bank_offset (cb0 : Nat) (banknumber : Int) : Int :=
  let offset : Int := (LEN_NES_HEADER : Int)
  let offset := if cb0 &&& 0x04 ≠ 0 then offset + (TRAINER_SIZE : Int) else offset
  offset + (banknumber - 1) * (PRG_PAGE_SIZE : Int)

/-- File offset computed by load_chr_rom_bank (source lines 88-93). -/
def load_chr_rom_bank_offset (cb0 prg : Nat) (banknumber : Int) : Int :=
  let offset : Int := (LEN_NES_HEADER : Int)
  let offset := if cb0 &&& 0x04 ≠ 0 then offset + (TRAINER_SIZE : Int) else offset
  offset + (PRG_PAGE_SIZE : Int) * (prg : Int) + (banknumber - 1) * (CHR_PAGE_SIZE : Int)

/-- First inline offset of the Standard branch (source lines 153-156,
including the no-op reassignment on line 156). -/
def standard_prg1_offset (cb0 : Nat) : Int :=
  let offset : Int := (LEN_NES_HEADER : Int)
  let offset := if cb0 &&& 0x04 ≠ 0 then offset + (TRAINER_SIZE : Int) else offset
  offset

/-- Second inline offset of the Standard branch (source lines 158-161). -/
def standard_prg_last_offset (cb0 prg : Nat) : Int :=
  let offset : Int := (LEN_NES_HEADER : Int)
  let offset := if cb0 &&& 0x04 ≠ 0 then offset + (TRAINER_SIZE : Int) else offset
  offset + ((prg : Int) - 1) * (PRG_PAGE_SIZE : Int)

/-- Third inline offset of the Standard branch (source lines 163-166). -/
def standard_chr_offset (cb0 prg : Nat) : Int :=
  let offset : Int := (LEN_NES_HEADER : Int)
  let offset := if cb0 &&& 0x04 ≠ 0 then offset + (TRAINER_SIZE : Int) else offset
  offset + (PRG_PAGE_SIZE : Int) * (prg : Int)

/-! ## Mapper dispatch (source lines 144-175) -/

/-- mapper_version (source line 144). -/
def mapper_version (cb0 cb1 : Nat) : Nat :=
  ((cb0 &&& 0xF0) >>> 4) ||| (cb1 &&& 0xF0)

/-- The only dispatch outcome the code can reach besides an exception. -/
inductive MapperCase where
  | standard
deriving DecidableEq

/-- Mapper dispatch of load_file (source lines 145-175). Python evaluates
the or-chain of the first condition left to right; after the comparisons
against MAPPER_NONE .. MAPPER_MMC5 all fail it reads MAPPER_CAMERIC, an
identifier that is defined nowhere (line 54 defines MAPPER_CAMERICA), so
every mapper_version outside 0..5 raises NameError here. The comparison
against MAPPER_GNROM and the elif branches for MAPPER_MMC2, the AxROM
family and the default warning (lines 168-175) are unreachable. -/
def mapperDispatch (mv : Nat) : Except LoadErr MapperCase :=
  if mv = MAPPER_NONE ∨ mv = MAPPER_MMC1 ∨ mv = MAPPER_UxROM ∨ mv = MAPPER_CNROM ∨
      mv = MAPPER_MMC3 ∨ mv = MAPPER_MMC5 then
    .ok .standard
  else
    .error (.nameError "MAPPER_CAMERIC")

/-! ## Memory and regions (source lines 65-67, 107-167) -/

/-- The analysis database: a byte per address. -/
abbrev Mem := Nat → Nat

/-- zeromemory (source lines 65-67): PatchByte 0 over [ea, ea+size). -/
def zeromemory (ea size : Nat) (m : Mem) : Mem :=
  fun a => if ea ≤ a ∧ a < ea + size then 0 else m a

/-- Structured diagnostics of the copy stage. -/
inductive Diag where
  | truncatedSource (offset : Int) (count : Nat)
deriving DecidableEq

/-- Modelled from the spec: the host primitive li.file2base, whose code is
not in this repository. Per the spec failure semantics, a copy whose
computed offset plus requested length exceeds the available source length
fails with TruncatedSource and leaves the target region as the zero-fill
left it; otherwise the endva - va file bytes starting at offset land at
addresses [va, endva). A negative offset can never be satisfied by the
file, so it also fails the copy. -/
def file2base (src : List Nat) (offset : Int) (va endva : Nat) (m : Mem) :
    Mem × List Diag :=
  if 0 ≤ offset ∧ offset.toNat + (endva - va) ≤ src.length then
    (fun a => if va ≤ a ∧ a < endva then src.getD (offset.toNat + (a - va)) 0 else m a, [])
  else (m, [Diag.truncatedSource offset (endva - va)])

/-- A created segment: name, start address, byte size. Its contents live in
the Mem the load returns. -/
structure MemoryRegion where
  name : String
  start : Nat
  size : Nat
deriving DecidableEq

/-- The segments load_file creates, in creation order (source lines
107-140): RAM, IOREG, SRAM iff control byte 0 bit 1, EXPROM, TRAINER iff
control byte 0 bit 2, ROM. -/
def buildRegions (cb0 : Nat) : List MemoryRegion :=
  [⟨"RAM", RAM_START, RAM_SIZE⟩, ⟨"IOREG", IOREG_START, IOREG_SIZE⟩]
    ++ (if cb0 &&& 0x02 ≠ 0 then [⟨"SRAM", SRAM_START, SRAM_SIZE⟩] else [])
    ++ [⟨"EXPROM", EXPROM_START, EXPROM_SIZE⟩]
    ++ (if cb0 &&& 0x04 ≠ 0 then [⟨"TRAINER", TRAINER_START, TRAINER_SIZE⟩] else [])
    ++ [⟨"ROM", ROM_START, ROM_SIZE⟩]

/-- The zero-fill pass of load_file (source lines 107-140), one zeromemory
per created segment, applied in creation order to the prior database
state. -/
def buildMem (cb0 : Nat) (m0 : Mem) : Mem :=
  let m1 := zeromemory RAM_START RAM_SIZE m0
  let m2 := zeromemory IOREG_START IOREG_SIZE m1
  let m3 := if cb0 &&& 0x02 ≠ 0 then zeromemory SRAM_START SRAM_SIZE m2 else m2
  let m4 := zeromemory EXPROM_START EXPROM_SIZE m3
  let m5 := if cb0 &&& 0x04 ≠ 0 then zeromemory TRAINER_START TRAINER_SIZE m4 else m4
  zeromemory ROM_START ROM_SIZE m5

/-- The three file2base calls of the Standard branch (source lines
153-167): first PRG bank to [0x8000, 0xC000), last PRG bank to
[0xC000, 0x10000), first CHR bank to [0x0, 0x2000). -/
def standardCopies (src : List Nat) (cb0 prg : Nat) (m : Mem) : Mem × List Diag :=
  let r1 := file2base src (standard_prg1_offset cb0) ROM_START (ROM_START + PRG_PAGE_SIZE) m
  let r2 := file2base src (standard_prg_last_offset cb0 prg) (ROM_START + PRG_PAGE_SIZE)
    (ROM_START + PRG_PAGE_SIZE + PRG_PAGE_SIZE) r1.1
  let r3 := file2base src (standard_chr_offset cb0 prg) RAM_START (RAM_START + CHR_PAGE_SIZE) r2.1
  (r3.1, r1.2 ++ r2.2 ++ r3.2)

/-- What a completed load returns: the created segments, the database
contents, and the copy diagnostics. -/
structure LoadResult where
  regions : List MemoryRegion
  mem : Mem
  diags : List Diag

/-- load_file (source lines 95-182) over an initial database state: decode
the header, create and zero-fill the segments, dispatch on mapper_version.
On NameError the Python function aborts with the exception, so no result is
returned (the segments already created in the global database are lost to
the failed load). -/
def load_file (src : List Nat) (m0 : Mem) : Except LoadErr LoadResult :=
  match decodeHeader src with
  | .error e => .error e
  | .ok h =>
    let m := buildMem h.rom_control_byte_0 m0
    match mapperDispatch (mapper_version h.rom_control_byte_0 h.rom_control_byte_1) with
    | .error e => .error e
    | .ok .standard =>
      let r := standardCopies src h.rom_control_byte_0 h.nb_prg_page_16k m
      .ok ⟨buildRegions h.rom_control_byte_0, r.1, r.2⟩

/-- Database contents after a load; the initial state on a failed load. -/
def loadMem (src : List Nat) (m0 : Mem) : Mem :=
  match load_file src m0 with
  | .ok r => r.mem
  | .error _ => m0

/-- Database contents after a load, if the load completed at all. -/
def loadMemAt (src : List Nat) (m0 : Mem) (a : Nat) : Option Nat :=
  match load_file src m0 with
  | .ok r => some (r.mem a)
  | .error _ => none

/-- Diagnostics of a completed load. -/
def loadDiags (src : List Nat) (m0 : Mem) : List Diag :=
  match load_file src m0 with
  | .ok r => r.diags
  | .error _ => []

/-- Segments of a completed load. -/
def loadRegions (src : List Nat) (m0 : Mem) : List MemoryRegion :=
  match load_file src m0 with
  | .ok r => r.regions
  | .error _ => []

/-- Interval intersection of two regions: some address lies in both
half-open [start, start+size) windows. -/
def regionOverlap (r1 r2 : MemoryRegion) : Prop :=
  ∃ a : Nat, (r1.start ≤ a ∧ a < r1.start + r1.size) ∧
    (r2.start ≤ a ∧ a < r2.start + r2.size)

/-- The all-zero initial database used by the concrete inputs. -/
def memZ : Mem := fun _ => 0

/-! ## Concrete inputs for witnesses and counterexamples -/

/-- 16-byte header, control byte 0 = 0x90, hence mapper id 9 (MMC2). -/
def src9 : List Nat := [78, 69, 83, 26, 1, 1, 0x90, 0, 0, 0, 0, 0, 0, 0, 0, 0]

/-- 16-byte header, control byte 0 = 0x06: SRAM and TRAINER both present,
mapper id 0. -/
def src3 : List Nat := [78, 69, 83, 26, 1, 1, 0x06, 0, 0, 0, 0, 0, 0, 0, 0, 0]

/-- Header with the trainer bit set followed by 512 trainer bytes of 7. -/
def srcT : List Nat :=
  [78, 69, 83, 26, 1, 1, 0x04, 0, 0, 0, 0, 0, 0, 0, 0, 0] ++ List.replicate 512 7

/-- The header srcT decodes to. -/
def hdrT : NES_HEADER := ⟨[78, 69, 83, 26], 1, 1, 4, 0, 0, [0, 0, 0, 0, 0, 0, 0]⟩

/-- The 16 header bytes of src6: one PRG page, one CHR page, no flags. -/
def hdr6bytes : List Nat := [78, 69, 83, 26, 1, 1, 0, 0, 0, 0, 0, 0, 0, 0, 0, 0]

/-- A complete single-PRG-bank image: 16384 PRG plus 8192 CHR bytes. -/
def src6 : List Nat := hdr6bytes ++ List.replicate 24576 5

/-- The header src6 decodes to. -/
def hdr6 : NES_HEADER := ⟨[78, 69, 83, 26], 1, 1, 0, 0, 0, [0, 0, 0, 0, 0, 0, 0]⟩

/-- A bare valid 16-byte header announcing 2 PRG pages and no data bytes:
every bank copy on it is truncated. -/
def src16 : List Nat := [78, 69, 83, 26, 2, 1, 0, 0, 0, 0, 0, 0, 0, 0, 0, 0]

/-- The header src16 decodes to. -/
def hdr16 : NES_HEADER := ⟨[78, 69, 83, 26], 2, 1, 0, 0, 0, [0, 0, 0, 0, 0, 0, 0]⟩

/-! ## Helper lemmas -/

/-- The trainer adjustment both bank-offset helpers apply. -/
def trainerAdj (cb0 : Nat) : Nat := if cb0 &&& 0x04 ≠ 0 then 512 else 0

lemma zeromemory_in {ea size a : Nat} (m : Mem) (h : ea ≤ a ∧ a < ea + size) :
    zeromemory ea size m a = 0 := by
  simp [zeromemory, h]

lemma zeromemory_out {ea size a : Nat} (m : Mem) (h : ¬ (ea ≤ a ∧ a < ea + size)) :
    zeromemory ea size m a = m a := by
  simp [zeromemory, h]

lemma ite_zeromemory_out {c : Prop} [Decidable c] {ea size a : Nat} (m : Mem)
    (h : ¬ (ea ≤ a ∧ a < ea + size)) :
    (if c then zeromemory ea size m else m) a = m a := by
  split
  · exact zeromemory_out m h
  · rfl

/-- Every zero-fill layer above RAM misses a RAM address, so the RAM
zero-fill decides its value. -/
lemma buildMem_ram_zero (cb0 : Nat) (m0 : Mem) {a : Nat}
    (ha : RAM_START ≤ a ∧ a < RAM_START + RAM_SIZE) :
    buildMem cb0 m0 a = 0 := by
  unfold buildMem
  rw [zeromemory_out _
    (by simp only [ROM_START, ROM_SIZE, RAM_START, RAM_SIZE] at ha ⊢; omega)]
  rw [ite_zeromemory_out _
    (by simp only [TRAINER_START, TRAINER_SIZE, RAM_START, RAM_SIZE] at ha ⊢; omega)]
  rw [zeromemory_out _
    (by simp only [EXPROM_START, EXPROM_SIZE, RAM_START, RAM_SIZE] at ha ⊢; omega)]
  rw [ite_zeromemory_out _
    (by simp only [SRAM_START, SRAM_SIZE, RAM_START, RAM_SIZE] at ha ⊢; omega)]
  rw [zeromemory_out _
    (by simp only [IOREG_START, IOREG_SIZE, RAM_START, RAM_SIZE] at ha ⊢; omega)]
  exact zeromemory_in _ ha

lemma file2base_fst_out {src : List Nat} {offset : Int} {va endva : Nat} (m : Mem) {a : Nat}
    (h : ¬ (va ≤ a ∧ a < endva)) : (file2base src offset va endva m).1 a = m a := by
  unfold file2base
  split
  · simp [h]
  · rfl

lemma file2base_fst_in {src : List Nat} {offset : Int} {va endva : Nat} (m : Mem) {a : Nat}
    (hg : 0 ≤ offset ∧ offset.toNat + (endva - va) ≤ src.length)
    (h : va ≤ a ∧ a < endva) :
    (file2base src offset va endva m).1 a = src.getD (offset.toNat + (a - va)) 0 := by
  unfold file2base
  rw [if_pos hg]
  simp [h]

lemma file2base_fst_fail {src : List Nat} {offset : Int} {va endva : Nat} (m : Mem)
    (hg : ¬ (0 ≤ offset ∧ offset.toNat + (endva - va) ≤ src.length)) :
    (file2base src offset va endva m).1 = m := by
  unfold file2base
  rw [if_neg hg]

lemma file2base_snd_ok {src : List Nat} {offset : Int} {va endva : Nat} (m : Mem)
    (hg : 0 ≤ offset ∧ offset.toNat + (endva - va) ≤ src.length) :
    (file2base src offset va endva m).2 = [] := by
  unfold file2base
  rw [if_pos hg]

lemma file2base_snd_fail {src : List Nat} {offset : Int} {va endva : Nat} (m : Mem)
    (hg : ¬ (0 ≤ offset ∧ offset.toNat + (endva - va) ≤ src.length)) :
    (file2base src offset va endva m).2 = [Diag.truncatedSource offset (endva - va)] := by
  unfold file2base
  rw [if_neg hg]

lemma standard_prg1_offset_eq (cb0 : Nat) :
    standard_prg1_offset cb0 = ((16 + trainerAdj cb0 : Nat) : Int) := by
  unfold standard_prg1_offset trainerAdj LEN_NES_HEADER TRAINER_SIZE
  split <;> simp

lemma standard_prg_last_offset_eq (cb0 prg : Nat) (hp : 1 ≤ prg) :
    standard_prg_last_offset cb0 prg =
      ((16 + trainerAdj cb0 + (prg - 1) * 16384 : Nat) : Int) := by
  unfold standard_prg_last_offset trainerAdj LEN_NES_HEADER TRAINER_SIZE PRG_PAGE_SIZE
  split <;> push_cast <;> omega

lemma standard_chr_offset_eq (cb0 prg : Nat) :
    standard_chr_offset cb0 prg = ((16 + trainerAdj cb0 + 16384 * prg : Nat) : Int) := by
  unfold standard_chr_offset trainerAdj LEN_NES_HEADER TRAINER_SIZE PRG_PAGE_SIZE
  split <;> push_cast <;> omega

lemma load_prg_rom_bank_offset_eq (cb0 : Nat) (b : Int) :
    load_prg_rom_bank_offset cb0 b = ((16 + trainerAdj cb0 : Nat) : Int) + (b - 1) * 16384 := by
  unfold load_prg_rom_bank_offset trainerAdj LEN_NES_HEADER TRAINER_SIZE PRG_PAGE_SIZE
  split <;> push_cast <;> ring

lemma load_chr_rom_bank_offset_eq (cb0 prg : Nat) (b : Int) :
    load_chr_rom_bank_offset cb0 prg b =
      ((16 + trainerAdj cb0 + 16384 * prg : Nat) : Int) + (b - 1) * 8192 := by
  unfold load_chr_rom_bank_offset trainerAdj LEN_NES_HEADER TRAINER_SIZE PRG_PAGE_SIZE
    CHR_PAGE_SIZE
  split <;> push_cast <;> ring

/-- A load whose header decodes and whose mapper dispatch lands in the
Standard branch is the zero-fill followed by the three Standard copies. -/
lemma load_file_standard (src : List Nat) (m0 : Mem) (h : NES_HEADER)
    (hd : decodeHeader src = .ok h)
    (hs : mapperDispatch (mapper_version h.rom_control_byte_0 h.rom_control_byte_1) =
      .ok MapperCase.standard) :
    load_file src m0 = .ok
      ⟨buildRegions h.rom_control_byte_0,
       (standardCopies src h.rom_control_byte_0 h.nb_prg_page_16k
         (buildMem h.rom_control_byte_0 m0)).1,
       (standardCopies src h.rom_control_byte_0 h.nb_prg_page_16k
         (buildMem h.rom_control_byte_0 m0)).2⟩ := by
  unfold load_file
  rw [hd]
  dsimp only
  rw [hs]

lemma loadMem_standard (src : List Nat) (m0 : Mem) (h : NES_HEADER)
    (hd : decodeHeader src = .ok h)
    (hs : mapperDispatch (mapper_version h.rom_control_byte_0 h.rom_control_byte_1) =
      .ok MapperCase.standard) :
    loadMem src m0 =
      (standardCopies src h.rom_control_byte_0 h.nb_prg_page_16k
        (buildMem h.rom_control_byte_0 m0)).1 := by
  unfold loadMem
  rw [load_file_standard src m0 h hd hs]

lemma loadDiags_standard (src : List Nat) (m0 : Mem) (h : NES_HEADER)
    (hd : decodeHeader src = .ok h)
    (hs : mapperDispatch (mapper_version h.rom_control_byte_0 h.rom_control_byte_1) =
      .ok MapperCase.standard) :
    loadDiags src m0 =
      (standardCopies src h.rom_control_byte_0 h.nb_prg_page_16k
        (buildMem h.rom_control_byte_0 m0)).2 := by
  unfold loadDiags
  rw [load_file_standard src m0 h hd hs]

/-- Length of the long concrete image, computed without deep evaluation. -/
lemma src6_length : src6.length = 24592 := by
  unfold src6 hdr6bytes
  rw [List.length_append, List.length_replicate]
  rfl

lemma decodeHeader_src6 : decodeHeader src6 = .ok hdr6 := by
  have ht4 : src6.take 4 = ROM_SIGNATURE := by
    unfold src6 hdr6bytes ROM_SIGNATURE
    rw [List.take_append_of_le_length (by norm_num)]
    rfl
  have ha : accept_file src6 0 = some ROM_FORMAT_NAME := by
    unfold accept_file ROM_SIGNATURE_LENGTH
    rw [if_neg (by norm_num), if_pos ht4]
  unfold decodeHeader
  rw [ha]
  have hlt : ¬ src6.length < LEN_NES_HEADER := by
    rw [src6_length]
    unfold LEN_NES_HEADER
    norm_num
  rw [if_neg hlt]
  have hg : ∀ k : Nat, k < 16 → src6.getD k 0 = hdr6bytes.getD k 0 := by
    intro k hk
    unfold src6
    exact List.getD_append _ _ _ _ (by unfold hdr6bytes; simp; omega)
  have hdrop : (src6.drop 9).take 7 = [0, 0, 0, 0, 0, 0, 0] := by
    unfold src6 hdr6bytes
    rw [List.drop_append_of_le_length (by norm_num)]
    rw [List.take_append_of_le_length (by norm_num)]
    rfl
  rw [ht4, hdrop, hg 4 (by norm_num), hg 5 (by norm_num), hg 6 (by norm_num),
    hg 7 (by norm_num), hg 8 (by norm_num)]
  rfl

/-! ## Claim theorems -/

/-- C1: the claim says mapper classification is a total function of the
MapperId, with id 0 mapping to Standard, 9 to MMC2Unsupported, 7 to
AxROMFamilyUnsupported and 255 to Unknown, and no failure mode. The code
computes the MapperId by the claimed formula and sends id 0 to the Standard
branch, but for every id outside 0..5 the dispatch chain raises NameError
on the undefined identifier MAPPER_CAMERIC, so ids 9, 7 and 255 fail
instead of classifying. -/
theorem C1_mapper_dispatch_name_error :
    mapper_version 0x90 0x00 = 9
    ∧ mapperDispatch 0 = .ok .standard
    ∧ mapperDispatch 9 = .error (.nameError "MAPPER_CAMERIC")
    ∧ mapperDispatch 7 = .error (.nameError "MAPPER_CAMERIC")
    ∧ mapperDispatch 255 = .error (.nameError "MAPPER_CAMERIC") :=
  ⟨by decide, by rfl, by rfl, by rfl, by rfl⟩

/-- C2: the claim says a load whose MapperId is MMC2, AxROM-family or
Unknown still completes with a diagnostic naming the unsupported id. On
the header src9 (mapper id 9) the code instead aborts with NameError while
evaluating the dispatch chain: no diagnostic is emitted and load_file never
returns its result. -/
theorem C2_unsupported_mapper_aborts :
    load_file src9 memZ = .error (.nameError "MAPPER_CAMERIC") := by
  rfl

/-- C7: the bank offset calculators satisfy the claimed closed formulas,
prgBankOffset(b) = 16 + trainerAdjustment + (b-1)*16384 and
chrBankOffset(b) = 16 + trainerAdjustment + prgPages16k*16384 + (b-1)*8192,
and the claimed instances: with no trainer and 2 PRG pages the PRG offsets
of banks 1 and 2 are 16 and 16400, and the trainer bit shifts both
by 512. -/
theorem C7_bank_offset_formulas (cb0 prg : Nat) (b : Int) (hb : 1 ≤ b) :
    load_prg_rom_bank_offset cb0 b
        = 16 + (if cb0 &&& 0x04 ≠ 0 then (512 : Int) else 0) + (b - 1) * 16384
    ∧ load_chr_rom_bank_offset cb0 prg b
        = 16 + (if cb0 &&& 0x04 ≠ 0 then (512 : Int) else 0) + (prg : Int) * 16384
            + (b - 1) * 8192
    ∧ load_prg_rom_bank_offset 0 1 = 16
    ∧ load_prg_rom_bank_offset 0 2 = 16400
    ∧ load_prg_rom_bank_offset 4 1 = 16 + 512
    ∧ load_prg_rom_bank_offset 4 2 = 16400 + 512 := by
  refine ⟨?_, ?_, by decide, by decide, by decide, by decide⟩
  · rw [load_prg_rom_bank_offset_eq]
    unfold trainerAdj
    split <;> push_cast <;> ring
  · rw [load_chr_rom_bank_offset_eq]
    unfold trainerAdj
    split <;> push_cast <;> ring

/-- Witness for C7 at trainer absent, 2 PRG pages, bank 1. -/
theorem C7_bank_offset_formulas_witness :
    load_prg_rom_bank_offset 0 1
      = 16 + (if (0 : Nat) &&& 0x04 ≠ 0 then (512 : Int) else 0) + ((1 : Int) - 1) * 16384 :=
  (C7_bank_offset_formulas 0 2 1 (by norm_num)).1

/-- C9: the decode stage fails with InvalidFormat exactly when fewer than
16 bytes are available or the first 4 bytes differ from the magic sequence
N, E, S, 0x1A; and accept_file accepts (returns the format name for) every
source whose first 4 bytes equal the magic. The failure happens before any
segment is created, so a rejected image produces no partial output. -/
theorem C9_header_decode (src : List Nat) :
    (decodeHeader src = .error .invalidFormat
        ↔ (src.length < 16 ∨ src.take 4 ≠ ROM_SIGNATURE))
    ∧ (src.take 4 = ROM_SIGNATURE → accept_file src 0 = some ROM_FORMAT_NAME) := by
  constructor
  · unfold decodeHeader accept_file ROM_SIGNATURE_LENGTH LEN_NES_HEADER
    by_cases hm : src.take 4 = ROM_SIGNATURE <;> by_cases hl : src.length < 16 <;>
      simp [hm, hl]
  · intro hm
    unfold accept_file ROM_SIGNATURE_LENGTH
    simp [hm]

/-- Witness for C9: a short source is rejected, a magic-bearing one is
accepted. -/
theorem C9_header_decode_witness :
    decodeHeader [78] = .error .invalidFormat
    ∧ accept_file src16 0 = some ROM_FORMAT_NAME :=
  ⟨(C9_header_decode [78]).1.mpr (by decide), (C9_header_decode src16).2 (by decide)⟩

/-- C10: the three inline offsets of the Standard branch coincide with the
standalone helpers at banks 1, prgPages16k and 1: the branch reimplements
load_prg_rom_bank for the first and last PRG bank and load_chr_rom_bank
for the first CHR bank. -/
theorem C10_inline_offsets_match_helpers (cb0 prg : Nat) :
    standard_prg1_offset cb0 = load_prg_rom_bank_offset cb0 1
    ∧ standard_prg_last_offset cb0 prg = load_prg_rom_bank_offset cb0 (prg : Int)
    ∧ standard_chr_offset cb0 prg = load_chr_rom_bank_offset cb0 prg 1 := by
  unfold standard_prg1_offset standard_prg_last_offset standard_chr_offset
    load_prg_rom_bank_offset load_chr_rom_bank_offset
  refine ⟨?_, ?_, ?_⟩ <;> split <;> ring

/-- C8: for every decoded header, the built region set contains the SRAM
segment exactly when bit 1 of control byte 0 is set, and the TRAINER
segment exactly when bit 2 is set; each is absent when its bit is clear. -/
theorem C8_conditional_regions (src : List Nat) (h : NES_HEADER)
    (hd : decodeHeader src = .ok h) :
    ((⟨"SRAM", SRAM_START, SRAM_SIZE⟩ : MemoryRegion) ∈ buildRegions h.rom_control_byte_0
        ↔ h.rom_control_byte_0 &&& 0x02 ≠ 0)
    ∧ ((⟨"TRAINER", TRAINER_START, TRAINER_SIZE⟩ : MemoryRegion)
          ∈ buildRegions h.rom_control_byte_0
        ↔ h.rom_control_byte_0 &&& 0x04 ≠ 0) := by
  by_cases b2 : h.rom_control_byte_0 &&& 0x02 ≠ 0 <;>
    by_cases b4 : h.rom_control_byte_0 &&& 0x04 ≠ 0 <;>
      simp [buildRegions, b2, b4, RAM_START, RAM_SIZE, IOREG_START, IOREG_SIZE,
        EXPROM_START, EXPROM_SIZE, SRAM_START, SRAM_SIZE, TRAINER_START, TRAINER_SIZE,
        ROM_START, ROM_SIZE]

/-- Witness for C8 at the header of src3 (control byte 0 = 0x06). -/
theorem C8_conditional_regions_witness :
    (⟨"SRAM", SRAM_START, SRAM_SIZE⟩ : MemoryRegion) ∈ buildRegions 6 :=
  (C8_conditional_regions src3 ⟨[78, 69, 83, 26], 1, 1, 6, 0, 0, [0, 0, 0, 0, 0, 0, 0]⟩
    (by rfl)).1.mpr (by decide)

/-- Interval intersection is equivalent to the arithmetic condition on the
interval bounds. -/
lemma regionOverlap_iff (r1 r2 : MemoryRegion) :
    regionOverlap r1 r2 ↔
      max r1.start r2.start < min (r1.start + r1.size) (r2.start + r2.size) := by
  constructor
  · rintro ⟨a, ⟨ha1, ha2⟩, ha3, ha4⟩
    omega
  · intro h
    exact ⟨max r1.start r2.start, ⟨Nat.le_max_left _ _, by omega⟩,
      Nat.le_max_right _ _, by omega⟩

/-- Every created region is one of the six fixed layout rows. -/
lemma buildRegions_subset (cb0 : Nat) :
    ∀ r ∈ buildRegions cb0,
      r ∈ ([⟨"RAM", RAM_START, RAM_SIZE⟩, ⟨"IOREG", IOREG_START, IOREG_SIZE⟩,
            ⟨"SRAM", SRAM_START, SRAM_SIZE⟩, ⟨"EXPROM", EXPROM_START, EXPROM_SIZE⟩,
            ⟨"TRAINER", TRAINER_START, TRAINER_SIZE⟩,
            ⟨"ROM", ROM_START, ROM_SIZE⟩] : List MemoryRegion) := by
  intro r hr
  by_cases b2 : cb0 &&& 0x02 ≠ 0 <;> by_cases b4 : cb0 &&& 0x04 ≠ 0 <;>
    simp [buildRegions, b2, b4] at hr <;>
      simp only [List.mem_cons, List.not_mem_nil, or_false] <;> tauto

/-- C3 counterexample: the claim says no two regions of a built address
space intersect, in particular when SRAM and TRAINER are both present. On
src3 (control byte 0 = 0x06) the load completes and creates both, and the
address 0x7000 lies in SRAM = [0x6000, 0x8000) as well as in
TRAINER = [0x7000, 0x7200). -/
theorem C3_overlap_counterexample :
    (⟨"SRAM", SRAM_START, SRAM_SIZE⟩ : MemoryRegion) ∈ loadRegions src3 memZ
    ∧ (⟨"TRAINER", TRAINER_START, TRAINER_SIZE⟩ : MemoryRegion) ∈ loadRegions src3 memZ
    ∧ regionOverlap ⟨"SRAM", SRAM_START, SRAM_SIZE⟩
        ⟨"TRAINER", TRAINER_START, TRAINER_SIZE⟩ :=
  ⟨by decide, by decide, ⟨0x7000, by decide⟩⟩

/-- C3 amended: no two distinct created regions intersect except the
SRAM/TRAINER pair, whose intervals do intersect whenever both are present
(TRAINER = [0x7000, 0x7200) lies inside SRAM = [0x6000, 0x8000)). -/
theorem C3_amended_no_overlap_except_sram_trainer (cb0 : Nat) (r1 r2 : MemoryRegion)
    (h1 : r1 ∈ buildRegions cb0) (h2 : r2 ∈ buildRegions cb0)
    (hne : r1.name ≠ r2.name) (hov : regionOverlap r1 r2) :
    (r1.name = "SRAM" ∧ r2.name = "TRAINER")
    ∨ (r1.name = "TRAINER" ∧ r2.name = "SRAM") := by
  rw [regionOverlap_iff] at hov
  have H1 := buildRegions_subset cb0 r1 h1
  have H2 := buildRegions_subset cb0 r2 h2
  simp only [List.mem_cons, List.not_mem_nil, or_false] at H1 H2
  rcases H1 with rfl | rfl | rfl | rfl | rfl | rfl <;>
    rcases H2 with rfl | rfl | rfl | rfl | rfl | rfl <;>
      revert hne hov <;> decide

/-- Witness for C3 amended at the SRAM/TRAINER pair of buildRegions 6. -/
theorem C3_amended_witness :
    ((⟨"SRAM", SRAM_START, SRAM_SIZE⟩ : MemoryRegion).name = "SRAM"
        ∧ (⟨"TRAINER", TRAINER_START, TRAINER_SIZE⟩ : MemoryRegion).name = "TRAINER")
    ∨ ((⟨"SRAM", SRAM_START, SRAM_SIZE⟩ : MemoryRegion).name = "TRAINER"
        ∧ (⟨"TRAINER", TRAINER_START, TRAINER_SIZE⟩ : MemoryRegion).name = "SRAM") :=
  C3_amended_no_overlap_except_sram_trainer 6 _ _ (by decide) (by decide) (by decide)
    ⟨0x7000, by decide⟩

/-- C4 counterexample: the claim says that with the trainer bit set the 512
file bytes at offset 16 are copied into the TRAINER region. On srcT, whose
byte 16 is 7, the load completes but the first TRAINER byte reads 0: no
copy into the TRAINER region exists anywhere in load_file. -/
theorem C4_trainer_not_copied_counterexample :
    loadMemAt srcT memZ TRAINER_START = some 0 ∧ srcT.getD 16 0 = 7 :=
  ⟨by rfl, by rfl⟩

/-- C4 amended: when the trainer bit is set the TRAINER region is created
and zero-filled, but no bytes are copied into it; after a completed load
its 512 bytes are all zero (the trainer bytes only shift the bank offsets,
they are never loaded). -/
theorem C4_amended_trainer_zero (src : List Nat) (m0 : Mem) (h : NES_HEADER)
    (hd : decodeHeader src = .ok h)
    (ht : h.rom_control_byte_0 &&& 0x04 ≠ 0)
    (hs : mapperDispatch (mapper_version h.rom_control_byte_0 h.rom_control_byte_1) =
      .ok MapperCase.standard) :
    ∀ i < 512, loadMem src m0 (TRAINER_START + i) = 0 := by
  intro i hi
  rw [loadMem_standard src m0 h hd hs]
  unfold standardCopies
  dsimp only
  rw [file2base_fst_out _ (by simp only [RAM_START, CHR_PAGE_SIZE, TRAINER_START]; omega)]
  rw [file2base_fst_out _
    (by simp only [ROM_START, PRG_PAGE_SIZE, TRAINER_START]; omega)]
  rw [file2base_fst_out _
    (by simp only [ROM_START, PRG_PAGE_SIZE, TRAINER_START]; omega)]
  unfold buildMem
  rw [zeromemory_out _ (by simp only [ROM_START, ROM_SIZE, TRAINER_START]; omega)]
  rw [if_pos ht]
  exact zeromemory_in _
    ⟨Nat.le_add_right _ _, by simp only [TRAINER_START, TRAINER_SIZE]; omega⟩

/-- Witness for C4 amended at srcT. -/
theorem C4_amended_trainer_zero_witness :
    loadMem srcT memZ (TRAINER_START + 0) = 0 :=
  C4_amended_trainer_zero srcT memZ hdrT (by rfl) (by decide) (by rfl) 0 (by norm_num)

/-- C5: on a Standard-classified load, each of the three computed bank
copies whose file offset plus requested length exceeds the available
source length fails with a TruncatedSource diagnostic naming that offset
and length, and leaves its own target area zero-filled: the first PRG
copy and ROM bytes [0x8000, 0xC000), the last-bank PRG copy and ROM bytes
[0xC000, 0x10000), the CHR copy and the first 8192 RAM bytes. The
truncation behaviour of the host copy primitive is the spec-modelled
file2base above. -/
theorem C5_truncated_copy (src : List Nat) (m0 : Mem) (h : NES_HEADER)
    (hd : decodeHeader src = .ok h)
    (hs : mapperDispatch (mapper_version h.rom_control_byte_0 h.rom_control_byte_1) =
      .ok MapperCase.standard) :
    ((src.length : Int) < standard_prg1_offset h.rom_control_byte_0 + 16384 →
      Diag.truncatedSource (standard_prg1_offset h.rom_control_byte_0) PRG_PAGE_SIZE
          ∈ loadDiags src m0
        ∧ ∀ i < PRG_PAGE_SIZE, loadMem src m0 (ROM_START + i) = 0)
    ∧ ((src.length : Int)
        < standard_prg_last_offset h.rom_control_byte_0 h.nb_prg_page_16k + 16384 →
      Diag.truncatedSource (standard_prg_last_offset h.rom_control_byte_0 h.nb_prg_page_16k)
          PRG_PAGE_SIZE ∈ loadDiags src m0
        ∧ ∀ i < PRG_PAGE_SIZE, loadMem src m0 (ROM_START + PRG_PAGE_SIZE + i) = 0)
    ∧ ((src.length : Int)
        < standard_chr_offset h.rom_control_byte_0 h.nb_prg_page_16k + 8192 →
      Diag.truncatedSource (standard_chr_offset h.rom_control_byte_0 h.nb_prg_page_16k)
          CHR_PAGE_SIZE ∈ loadDiags src m0
        ∧ ∀ i < CHR_PAGE_SIZE, loadMem src m0 (RAM_START + i) = 0) := by
  refine ⟨?_, ?_, ?_⟩
  · intro htr
    have hg1 : ¬ (0 ≤ standard_prg1_offset h.rom_control_byte_0 ∧
        (standard_prg1_offset h.rom_control_byte_0).toNat
          + (ROM_START + PRG_PAGE_SIZE - ROM_START) ≤ src.length) := by
      simp only [ROM_START, PRG_PAGE_SIZE]
      rintro ⟨hpos, hle⟩
      omega
    constructor
    · rw [loadDiags_standard src m0 h hd hs]
      unfold standardCopies
      dsimp only
      rw [file2base_snd_fail _ hg1]
      have hsz : ROM_START + PRG_PAGE_SIZE - ROM_START = PRG_PAGE_SIZE := by
        simp only [ROM_START, PRG_PAGE_SIZE]
      rw [hsz]
      simp
    · intro i hi
      rw [loadMem_standard src m0 h hd hs]
      unfold standardCopies
      dsimp only
      rw [file2base_fst_out _
        (by simp only [RAM_START, CHR_PAGE_SIZE, ROM_START] at hi ⊢; omega)]
      rw [file2base_fst_out _
        (by simp only [ROM_START, PRG_PAGE_SIZE] at hi ⊢; omega)]
      rw [file2base_fst_fail _ hg1]
      unfold buildMem
      exact zeromemory_in _
        (by simp only [ROM_START, ROM_SIZE, PRG_PAGE_SIZE] at hi ⊢; omega)
  · intro htr
    have hg2 : ¬ (0 ≤ standard_prg_last_offset h.rom_control_byte_0 h.nb_prg_page_16k ∧
        (standard_prg_last_offset h.rom_control_byte_0 h.nb_prg_page_16k).toNat
          + (ROM_START + PRG_PAGE_SIZE + PRG_PAGE_SIZE - (ROM_START + PRG_PAGE_SIZE))
          ≤ src.length) := by
      simp only [ROM_START, PRG_PAGE_SIZE]
      rintro ⟨hpos, hle⟩
      omega
    constructor
    · rw [loadDiags_standard src m0 h hd hs]
      unfold standardCopies
      dsimp only
      rw [file2base_snd_fail _ hg2]
      have hsz : ROM_START + PRG_PAGE_SIZE + PRG_PAGE_SIZE - (ROM_START + PRG_PAGE_SIZE)
          = PRG_PAGE_SIZE := by
        simp only [ROM_START, PRG_PAGE_SIZE]
      rw [hsz]
      simp
    · intro i hi
      rw [loadMem_standard src m0 h hd hs]
      unfold standardCopies
      dsimp only
      rw [file2base_fst_out _
        (by simp only [RAM_START, CHR_PAGE_SIZE, ROM_START, PRG_PAGE_SIZE] at hi ⊢; omega)]
      rw [file2base_fst_fail _ hg2]
      rw [file2base_fst_out _
        (by simp only [ROM_START, PRG_PAGE_SIZE] at hi ⊢; omega)]
      unfold buildMem
      exact zeromemory_in _
        (by simp only [ROM_START, ROM_SIZE, PRG_PAGE_SIZE] at hi ⊢; omega)
  · intro htr
    have hg3 : ¬ (0 ≤ standard_chr_offset h.rom_control_byte_0 h.nb_prg_page_16k ∧
        (standard_chr_offset h.rom_control_byte_0 h.nb_prg_page_16k).toNat
          + (RAM_START + CHR_PAGE_SIZE - RAM_START) ≤ src.length) := by
      simp only [RAM_START, CHR_PAGE_SIZE]
      rintro ⟨hpos, hle⟩
      omega
    constructor
    · rw [loadDiags_standard src m0 h hd hs]
      unfold standardCopies
      dsimp only
      rw [file2base_snd_fail _ hg3]
      have hsz : RAM_START + CHR_PAGE_SIZE - RAM_START = CHR_PAGE_SIZE := by
        simp only [RAM_START, CHR_PAGE_SIZE]
      rw [hsz]
      simp
    · intro i hi
      rw [loadMem_standard src m0 h hd hs]
      unfold standardCopies
      dsimp only
      rw [file2base_fst_fail _ hg3]
      rw [file2base_fst_out _
        (by simp only [ROM_START, PRG_PAGE_SIZE, RAM_START, CHR_PAGE_SIZE] at hi ⊢; omega)]
      rw [file2base_fst_out _
        (by simp only [ROM_START, PRG_PAGE_SIZE, RAM_START, CHR_PAGE_SIZE] at hi ⊢; omega)]
      exact buildMem_ram_zero _ _
        (by simp only [RAM_START, RAM_SIZE, CHR_PAGE_SIZE] at hi ⊢; omega)

/-- Witness for C5: a 2-PRG-page header with no data bytes at all, so all
three bank copies read past the end of the source. -/
theorem C5_truncated_copy_witness :
    Diag.truncatedSource (standard_prg1_offset 0) PRG_PAGE_SIZE ∈ loadDiags src16 memZ
    ∧ Diag.truncatedSource (standard_prg_last_offset 0 2) PRG_PAGE_SIZE
        ∈ loadDiags src16 memZ
    ∧ Diag.truncatedSource (standard_chr_offset 0 2) CHR_PAGE_SIZE ∈ loadDiags src16 memZ
    ∧ loadMem src16 memZ (ROM_START + 0) = 0
    ∧ loadMem src16 memZ (ROM_START + PRG_PAGE_SIZE + 0) = 0
    ∧ loadMem src16 memZ (RAM_START + 0) = 0 := by
  have H := C5_truncated_copy src16 memZ hdr16 (by rfl) (by rfl)
  exact ⟨(H.1 (by decide)).1, (H.2.1 (by decide)).1, (H.2.2 (by decide)).1,
    (H.1 (by decide)).2 0 (by decide), (H.2.1 (by decide)).2 0 (by decide),
    (H.2.2 (by decide)).2 0 (by decide)⟩

/-- C6: on every Standard-classified load of a sufficiently long source,
the first PRG bank lands at ROM addresses [0x8000, 0xC000), the last PRG
bank (bank prgPages16k) at [0xC000, 0x10000), and the first CHR bank in the
first 8192 RAM bytes; with a single PRG page the two 16KB ROM halves are
byte-identical. -/
theorem C6_standard_copies (src : List Nat) (m0 : Mem) (h : NES_HEADER)
    (hd : decodeHeader src = .ok h)
    (hs : mapperDispatch (mapper_version h.rom_control_byte_0 h.rom_control_byte_1) =
      .ok MapperCase.standard)
    (hp : 1 ≤ h.nb_prg_page_16k)
    (hlen : 16 + trainerAdj h.rom_control_byte_0 + h.nb_prg_page_16k * 16384 + 8192
      ≤ src.length) :
    (∀ i < 16384, loadMem src m0 (ROM_START + i)
        = src.getD ((load_prg_rom_bank_offset h.rom_control_byte_0 1).toNat + i) 0)
    ∧ (∀ i < 16384, loadMem src m0 (ROM_START + PRG_PAGE_SIZE + i)
        = src.getD ((load_prg_rom_bank_offset h.rom_control_byte_0
            (h.nb_prg_page_16k : Int)).toNat + i) 0)
    ∧ (∀ i < 8192, loadMem src m0 (RAM_START + i)
        = src.getD ((load_chr_rom_bank_offset h.rom_control_byte_0 h.nb_prg_page_16k
            1).toNat + i) 0)
    ∧ (h.nb_prg_page_16k = 1 → ∀ i < 16384,
        loadMem src m0 (ROM_START + i) = loadMem src m0 (ROM_START + PRG_PAGE_SIZE + i)) := by
  have e1 := standard_prg1_offset_eq h.rom_control_byte_0
  have e2 := standard_prg_last_offset_eq h.rom_control_byte_0 h.nb_prg_page_16k hp
  have e3 := standard_chr_offset_eq h.rom_control_byte_0 h.nb_prg_page_16k
  have g1 : 0 ≤ standard_prg1_offset h.rom_control_byte_0 ∧
      (standard_prg1_offset h.rom_control_byte_0).toNat
        + (ROM_START + PRG_PAGE_SIZE - ROM_START) ≤ src.length := by
    rw [e1]
    simp only [ROM_START, PRG_PAGE_SIZE]
    omega
  have g2 : 0 ≤ standard_prg_last_offset h.rom_control_byte_0 h.nb_prg_page_16k ∧
      (standard_prg_last_offset h.rom_control_byte_0 h.nb_prg_page_16k).toNat
        + (ROM_START + PRG_PAGE_SIZE + PRG_PAGE_SIZE - (ROM_START + PRG_PAGE_SIZE))
        ≤ src.length := by
    rw [e2]
    simp only [ROM_START, PRG_PAGE_SIZE]
    omega
  have g3 : 0 ≤ standard_chr_offset h.rom_control_byte_0 h.nb_prg_page_16k ∧
      (standard_chr_offset h.rom_control_byte_0 h.nb_prg_page_16k).toNat
        + (RAM_START + CHR_PAGE_SIZE - RAM_START) ≤ src.length := by
    rw [e3]
    simp only [RAM_START, CHR_PAGE_SIZE]
    omega
  have hA : ∀ i < 16384, loadMem src m0 (ROM_START + i)
      = src.getD ((load_prg_rom_bank_offset h.rom_control_byte_0 1).toNat + i) 0 := by
    intro i hi
    rw [loadMem_standard src m0 h hd hs]
    unfold standardCopies
    dsimp only
    rw [file2base_fst_out _ (by simp only [RAM_START, CHR_PAGE_SIZE, ROM_START]; omega)]
    rw [file2base_fst_out _ (by simp only [ROM_START, PRG_PAGE_SIZE]; omega)]
    have hr1 : ROM_START ≤ ROM_START + i ∧ ROM_START + i < ROM_START + PRG_PAGE_SIZE := by
      simp only [ROM_START, PRG_PAGE_SIZE]
      omega
    rw [file2base_fst_in _ g1 hr1]
    have hidx : (standard_prg1_offset h.rom_control_byte_0).toNat
        + (ROM_START + i - ROM_START)
        = (load_prg_rom_bank_offset h.rom_control_byte_0 1).toNat + i := by
      rw [e1, load_prg_rom_bank_offset_eq]
      simp only [ROM_START]
      omega
    rw [hidx]
  have hB : ∀ i < 16384, loadMem src m0 (ROM_START + PRG_PAGE_SIZE + i)
      = src.getD ((load_prg_rom_bank_offset h.rom_control_byte_0
          (h.nb_prg_page_16k : Int)).toNat + i) 0 := by
    intro i hi
    rw [loadMem_standard src m0 h hd hs]
    unfold standardCopies
    dsimp only
    rw [file2base_fst_out _
      (by simp only [RAM_START, CHR_PAGE_SIZE, ROM_START, PRG_PAGE_SIZE]; omega)]
    have hr2 : ROM_START + PRG_PAGE_SIZE ≤ ROM_START + PRG_PAGE_SIZE + i ∧
        ROM_START + PRG_PAGE_SIZE + i < ROM_START + PRG_PAGE_SIZE + PRG_PAGE_SIZE := by
      simp only [ROM_START, PRG_PAGE_SIZE]
      omega
    rw [file2base_fst_in _ g2 hr2]
    have hidx : (standard_prg_last_offset h.rom_control_byte_0 h.nb_prg_page_16k).toNat
        + (ROM_START + PRG_PAGE_SIZE + i - (ROM_START + PRG_PAGE_SIZE))
        = (load_prg_rom_bank_offset h.rom_control_byte_0
            (h.nb_prg_page_16k : Int)).toNat + i := by
      rw [e2, load_prg_rom_bank_offset_eq]
      simp only [ROM_START, PRG_PAGE_SIZE]
      omega
    rw [hidx]
  have hC : ∀ i < 8192, loadMem src m0 (RAM_START + i)
      = src.getD ((load_chr_rom_bank_offset h.rom_control_byte_0 h.nb_prg_page_16k
          1).toNat + i) 0 := by
    intro i hi
    rw [loadMem_standard src m0 h hd hs]
    unfold standardCopies
    dsimp only
    have hr3 : RAM_START ≤ RAM_START + i ∧ RAM_START + i < RAM_START + CHR_PAGE_SIZE := by
      simp only [RAM_START, CHR_PAGE_SIZE]
      omega
    rw [file2base_fst_in _ g3 hr3]
    have hidx : (standard_chr_offset h.rom_control_byte_0 h.nb_prg_page_16k).toNat
        + (RAM_START + i - RAM_START)
        = (load_chr_rom_bank_offset h.rom_control_byte_0 h.nb_prg_page_16k 1).toNat + i := by
      rw [e3, load_chr_rom_bank_offset_eq]
      simp only [RAM_START]
      omega
    rw [hidx]
  refine ⟨hA, hB, hC, ?_⟩
  intro hp1 i hi
  rw [hA i hi, hB i hi, hp1]
  norm_num

/-- Witness for C6 at src6, a complete one-PRG-page image. -/
theorem C6_standard_copies_witness :
    loadMem src6 memZ (RAM_START + 0)
      = src6.getD ((load_chr_rom_bank_offset 0 1 1).toNat + 0) 0 := by
  have H := C6_standard_copies src6 memZ hdr6 decodeHeader_src6 (by rfl) (by decide)
    (by rw [src6_length]; decide)
  exact H.2.2.1 0 (by norm_num)

end NES
